import Mathlib

/-!
Shallow embedding of `agent.py` (lk-telephony-agent): a LiveKit telephony /
web agent with two function tools (`get_call_debrief`, `hangup_call`), a
persona selector (`Assistant.__init__`), and an entrypoint (`my_agent`) that
classifies the session origin from the room name and remote participants.

Modelling conventions:
- External effects (scheduling a reply, capturing the transcript, calling
  `delete_room`, POSTing the transcript) are recorded as an ordered trace of
  `Action`s, in the order the Python statements execute.
- Python exceptions that escape a function are `Except.error`; a normal
  return value is `Except.ok`.
- The session runs on a single cooperative asyncio event loop: between two
  awaits no other task runs, so `session.history` cannot change between the
  `generate_reply` call (agent.py line 63, not awaited) and the transcript
  capture (line 66).
- `agent.py` registers no participant-disconnect or shutdown callback, and
  `send_transcript_to_n8n` is defined (lines 16-28) but never called, so a
  transport-level disconnect event executes no orchestrator code; this is
  reflected in `processEvent`.
-/

namespace Agent

/-- One utterance event of the session history
(`session.history.to_dict()["items"]` in agent.py). -/
structure Utterance where
  role : String
  content : String
deriving DecidableEq, Repr

/-- The JSON payload POSTed to the n8n transcript webhook
(agent.py lines 78-81): a transcript string and an ISO timestamp with the
America/Los_Angeles offset. The transcript is modelled as the list of
utterances it serializes. -/
structure Payload where
  transcript : List Utterance
  timestamp : String
deriving DecidableEq, Repr

/-- Externally visible steps taken by the tools, in program order.
`awaitPlayout` (waiting for the goodbye audio to finish) is a step the
code could have taken but never does: `generate_reply`'s handle is not
awaited (agent.py line 63). -/
inductive Action where
  | disallowInterruptions : Action
  | scheduleReply : String → Action
  | awaitPlayout : Action
  | captureTranscript : List Utterance → Action
  | deleteRoom : String → Action
  | postTranscript : Payload → Action
deriving DecidableEq, Repr

/-- Environment a `hangup_call` invocation runs in: the session history at
tool entry, the clock value, the job context (`get_job_context()`, carrying
the room name when present), whether the remote `delete_room` call raises,
and the outcome of the transcript POST (`Except.error` when `requests.post`
raises, otherwise the HTTP status code). -/
structure Env where
  history : List Utterance
  now : String
  jobCtx : Option String
  deleteRoomFails : Bool
  postResult : Except String Nat
deriving Repr

/-- Result of running a function tool: the ordered trace of external
actions it performed, and either the returned string or the exception that
escaped it. -/
structure ToolRun where
  trace : List Action
  result : Except String String
deriving Repr

/-- agent.py line 58: the fixed spam-rejection instruction passed verbatim
to `generate_reply` when `is_spam` is true. -/
def spamMessage : String :=
  "You MUST say exactly these words with no changes: \x27I\x27m not interested in unsolicited offers. Please remove this number from your calling list. Goodbye.\x27 Do not add anything else. Do not say \x27call has been ended\x27 or offer assistance."

/-- agent.py line 60: the templated polite-goodbye instruction passed to
`generate_reply` when `is_spam` is false. -/
def normalMessage : String :=
  "Say a polite goodbye, such as: \x27Thank you for calling. I\x27ll make sure James gets your message. Have a great day!\x27"

/-- agent.py lines 50-87, `hangup_call(run_ctx, is_spam=False)`:
disallow interruptions (line 54); pick the spam or normal message (57-60);
schedule the goodbye without awaiting it (63); capture the transcript and
timestamp (66-67); if a job context exists, await `delete_room` (70-74) —
this call is NOT wrapped in try/except, so a failure propagates and the
rest of the body is skipped; otherwise POST the captured transcript inside
try/except (77-85, any exception is logged and swallowed, and the POST
status only logged), and return the empty string (87). -/
def hangup_call (env : Env) (is_spam : Bool) : ToolRun :=
  let message := if is_spam then spamMessage else normalMessage
  let transcript_data := env.history
  let timestamp := env.now
  let pre : List Action :=
    [Action.disallowInterruptions, Action.scheduleReply message,
     Action.captureTranscript transcript_data]
  match env.jobCtx with
  | some room =>
    if env.deleteRoomFails then
      { trace := pre ++ [Action.deleteRoom room]
        result := Except.error "delete_room failed" }
    else
      { trace := pre ++ [Action.deleteRoom room,
          Action.postTranscript { transcript := transcript_data, timestamp := timestamp }]
        result := Except.ok "" }
  | none =>
    { trace := pre ++
        [Action.postTranscript { transcript := transcript_data, timestamp := timestamp }]
      result := Except.ok "" }

/-- The Python signature defaults `is_spam` to `False` (agent.py line 51). -/
def hangup_call_default_is_spam : Bool := false

/-- `hangup_call` as invoked with the `is_spam` argument omitted. -/
def hangup_call_default (env : Env) : ToolRun :=
  hangup_call env hangup_call_default_is_spam

/-- Outcome of the `requests.get` issued by `get_call_debrief`
(agent.py line 45): either a response with a status code and body text, or
a raised exception (connection failure, timeout, missing URL, ...). -/
inductive HttpGetResult where
  | response : Nat → String → HttpGetResult
  | raised : String → HttpGetResult
deriving DecidableEq, Repr

/-- agent.py lines 31-48, `get_call_debrief`: after disallowing
interruptions it performs `requests.get` with NO try/except — an exception
from the GET propagates out of the tool. On a response, the body text is
returned when the status is 200, the empty string otherwise; the body is
never parsed or transformed. -/
def get_call_debrief (r : HttpGetResult) : Except String String :=
  match r with
  | HttpGetResult.raised e => Except.error e
  | HttpGetResult.response status body =>
      Except.ok (if status == 200 then body else "")

/-- agent.py lines 16-28, `send_transcript_to_n8n`: POSTs the history and a
timestamp, returns whether the status was 200, and returns False when the
POST raises. Defined in agent.py but never called from any code path. -/
def send_transcript_to_n8n (env : Env) : Bool :=
  match env.postResult with
  | Except.ok status => status == 200
  | Except.error _ => false

/-- Termination triggers that can reach a session: the engine invoking the
`hangup_call` tool, or a transport-level disconnect (the caller hung up). -/
inductive SessionEvent where
  | toolHangup : Bool → SessionEvent
  | disconnect : SessionEvent
deriving DecidableEq, Repr

/-- What the code in agent.py runs for each event. `my_agent` registers no
room-event or shutdown callback, so a transport disconnect executes no
orchestrator code at all; only the `hangup_call` tool invocation runs
termination logic. -/
def processEvent (env : Env) (e : SessionEvent) : List Action :=
  match e with
  | SessionEvent.toolHangup s => (hangup_call env s).trace
  | SessionEvent.disconnect => []

/-- Actions performed over a sequence of session events. -/
def runSession (env : Env) (events : List SessionEvent) : List Action :=
  events.foldr (fun e acc => processEvent env e ++ acc) []

/-- Discriminator: is this action a scheduled reply? -/
def Action.isScheduleReply : Action → Bool
  | Action.scheduleReply _ => true
  | _ => false

/-- Discriminator: is this action a transcript capture? -/
def Action.isCapture : Action → Bool
  | Action.captureTranscript _ => true
  | _ => false

/-- Discriminator: is this action the remote room deletion (teardown)? -/
def Action.isTeardown : Action → Bool
  | Action.deleteRoom _ => true
  | _ => false

/-- Discriminator: is this action a transcript delivery attempt? -/
def Action.isPost : Action → Bool
  | Action.postTranscript _ => true
  | _ => false

/-- Number of remote teardown (`delete_room`) calls in a trace. -/
def countTeardowns (tr : List Action) : Nat :=
  (tr.filter Action.isTeardown).length

/-- Number of transcript delivery attempts (POSTs) in a trace. -/
def countPosts (tr : List Action) : Nat :=
  (tr.filter Action.isPost).length

/-- Kind of a remote participant, as far as the classification cares:
SIP (telephony-originated) or anything else. -/
inductive ParticipantKind where
  | sip : ParticipantKind
  | standard : ParticipantKind
deriving DecidableEq, Repr

/-- agent.py line 122: the room-name telephone pattern —
`ctx.room.name.startswith("call-") and "+" in ctx.room.name` — the name
starts with "call-" and contains a "+" character, stated over the name
as its character sequence. -/
def roomNamePhonePattern (name : String) : Bool :=
  "call-".data.isPrefixOf name.data && name.data.contains '+'

/-- agent.py lines 120-129: `is_phone` as computed in `my_agent`. Primary:
the room-name pattern. Secondary, only when the primary did not match:
scan the connected remote participants for a SIP participant. -/
def my_agent_is_phone (roomName : String) (remoteParticipants : List ParticipantKind) : Bool :=
  if roomNamePhonePattern roomName then true
  else remoteParticipants.any (fun p => p == ParticipantKind.sip)

/-- The session origin of the spec's data model: Phone or Web. -/
inductive Origin where
  | phone : Origin
  | web : Origin
deriving DecidableEq, Repr

/-- The spec's `classify`: the origin determined by `my_agent`'s
`is_phone` computation. -/
def classify (roomName : String) (remoteParticipants : List ParticipantKind) : Origin :=
  if my_agent_is_phone roomName remoteParticipants then Origin.phone else Origin.web

/-- Engine-invocable capabilities exposed by the two personas:
`terminate` is the `hangup_call` tool, `queryMemory` is `get_call_debrief`. -/
inductive Capability where
  | terminate : Capability
  | queryMemory : Capability
deriving DecidableEq, Repr

/-- agent.py lines 94-100: the phone (gatekeeper) persona instructions. -/
def phoneInstructions : String :=
  "You are \x22Sarah\x22, a protective AI Receptionist for James, answering a phone call forwarded from voicemail.\nPRIORITY: If the caller mentions ANY of these: car warranty, selling a car warranty, extended warranty, insurance offers, debt relief, credit card offers, timeshare, or ANY unsolicited sales pitch, you MUST IMMEDIATELY call the hangup_call function tool with is_spam=True. Do not respond verbally first. Do not ask questions. Just call the tool immediately.\nFor legitimate calls: Screen the call, collect name and full message. Let them finish speaking before ending.\nIMPORTANT: When the caller says goodbye, thanks you, says they\x27re done, or indicates the conversation is complete, you MUST IMMEDIATELY call hangup_call with is_spam=False. Do not continue the conversation after they say goodbye. Just call the tool right away.\nKeep responses under 2 sentences. Be professional, firm, and concise."

/-- agent.py lines 104-108: the web (chief-of-staff) persona instructions. -/
def webInstructions : String :=
  "You are \x22Sarah\x22, James\x27s Chief of Staff, appearing as a 3D Avatar on the web dashboard.\nWhen asked about voicemails, calls, or call history, use get_call_debrief to retrieve from Google Sheets. If data exists, summarize it. If empty, say \x22I don\x27t see any recent calls yet.\x22 Never invent call information.\nKeep responses concise (1-2 sentences unless detail is requested). Welcome James back and offer help."

/-- A persona bundle: instruction text plus enabled tool set. -/
structure AssistantConfig where
  instructions : String
  tools : List Capability
deriving DecidableEq, Repr

/-- agent.py lines 89-111, `Assistant.__init__(is_phone)`: phone mode gets
the gatekeeper instructions and `tools = [hangup_call]`; web mode gets the
chief-of-staff instructions and `tools = [get_call_debrief]`. -/
def Assistant_init (is_phone : Bool) : AssistantConfig :=
  if is_phone then
    { instructions := phoneInstructions, tools := [Capability.terminate] }
  else
    { instructions := webInstructions, tools := [Capability.queryMemory] }

/-- The spec's `select(origin)`: the persona bundle chosen for an origin,
via the code's boolean `is_phone` encoding of the two-valued origin. -/
def select (o : Origin) : AssistantConfig :=
  Assistant_init (o == Origin.phone)

/-- A concrete environment for evaluating the tools: a one-utterance
history, a fixed clock, a job context for a phone room, a succeeding
`delete_room`, and a succeeding POST. -/
def exEnv : Env :=
  { history := [{ role := "user", content := "hello" }]
    now := "2025-01-01T00:00:00-08:00"
    jobCtx := some "call-+15551234567"
    deleteRoomFails := false
    postResult := Except.ok 200 }

/-- Like `exEnv` but the remote `delete_room` call raises. -/
def failEnv : Env :=
  { history := [{ role := "user", content := "hello" }]
    now := "2025-01-01T00:00:00-08:00"
    jobCtx := some "call-+15551234567"
    deleteRoomFails := true
    postResult := Except.ok 200 }

/- Helper lemmas: the trace and result of `hangup_call` in each of its
three cases. -/

/-- Trace and result when a job context exists and `delete_room` succeeds. -/
theorem hangup_call_ok (env : Env) (room : String) (s : Bool)
    (hctx : env.jobCtx = some room) (hok : env.deleteRoomFails = false) :
    hangup_call env s =
      { trace := [Action.disallowInterruptions,
          Action.scheduleReply (if s then spamMessage else normalMessage),
          Action.captureTranscript env.history,
          Action.deleteRoom room,
          Action.postTranscript { transcript := env.history, timestamp := env.now }]
        result := Except.ok "" } := by
  simp [hangup_call, hctx, hok]

/-- Trace and result when a job context exists and `delete_room` raises. -/
theorem hangup_call_fail (env : Env) (room : String) (s : Bool)
    (hctx : env.jobCtx = some room) (hfail : env.deleteRoomFails = true) :
    hangup_call env s =
      { trace := [Action.disallowInterruptions,
          Action.scheduleReply (if s then spamMessage else normalMessage),
          Action.captureTranscript env.history,
          Action.deleteRoom room]
        result := Except.error "delete_room failed" } := by
  simp [hangup_call, hctx, hfail]

/-- Trace and result when no job context exists. -/
theorem hangup_call_noctx (env : Env) (s : Bool)
    (hctx : env.jobCtx = none) :
    hangup_call env s =
      { trace := [Action.disallowInterruptions,
          Action.scheduleReply (if s then spamMessage else normalMessage),
          Action.captureTranscript env.history,
          Action.postTranscript { transcript := env.history, timestamp := env.now }]
        result := Except.ok "" } := by
  simp [hangup_call, hctx]

/-- C5: for every terminated session, the delivered transcript snapshot
equals exactly the utterances recorded up to the moment Terminating begins
(the session history at `hangup_call` entry — no await point separates the
goodbye scheduling from the capture, so the closing line cannot have been
appended): the capture action records that history, and every delivered
payload carries exactly that history and the timestamp taken with it;
anything not recorded at that moment (in particular utterances generated by
the closing line) is excluded from the delivered snapshot. -/
theorem C5_snapshot_exact (env : Env) (s : Bool) (p : Payload)
    (hp : Action.postTranscript p ∈ (hangup_call env s).trace) :
    Action.captureTranscript env.history ∈ (hangup_call env s).trace ∧
    p.transcript = env.history ∧ p.timestamp = env.now ∧
    ∀ u : Utterance, u ∉ env.history → u ∉ p.transcript := by
  have hmain : p = { transcript := env.history, timestamp := env.now } ∧
      Action.captureTranscript env.history ∈ (hangup_call env s).trace := by
    cases hctx : env.jobCtx with
    | none =>
        rw [hangup_call_noctx env s hctx] at hp ⊢
        simp only [List.mem_cons, List.not_mem_nil, or_false, reduceCtorEq, false_or,
          Action.postTranscript.injEq] at hp
        exact ⟨hp, by simp⟩
    | some room =>
        cases hfail : env.deleteRoomFails with
        | false =>
            rw [hangup_call_ok env room s hctx hfail] at hp ⊢
            simp only [List.mem_cons, List.not_mem_nil, or_false, reduceCtorEq, false_or,
              Action.postTranscript.injEq] at hp
            exact ⟨hp, by simp⟩
        | true =>
            rw [hangup_call_fail env room s hctx hfail] at hp
            simp at hp
  obtain ⟨hpe, hcap⟩ := hmain
  subst hpe
  exact ⟨hcap, rfl, rfl, fun u hu hmem => hu hmem⟩

/-- C5 witness: concrete instance at `exEnv` with `is_spam = false`. -/
theorem C5_witness :
    ({ transcript := exEnv.history, timestamp := exEnv.now } : Payload).transcript
      = exEnv.history :=
  (C5_snapshot_exact exEnv false
    { transcript := exEnv.history, timestamp := exEnv.now } (by decide)).2.1

/-- C6: for every termination sequence with a job context, the first four
steps in order are: disallow interruptions, schedule the closing utterance,
capture the transcript, call `delete_room` — so the closing utterance is
initiated (with interruptions disallowed) before resource release, and the
snapshot is captured before the teardown call; and the trace never awaits
playout completion (the reply handle is not awaited). -/
theorem C6_step_ordering (env : Env) (room : String) (s : Bool)
    (hctx : env.jobCtx = some room) :
    (hangup_call env s).trace.take 4 =
      [Action.disallowInterruptions,
       Action.scheduleReply (if s then spamMessage else normalMessage),
       Action.captureTranscript env.history,
       Action.deleteRoom room] ∧
    Action.awaitPlayout ∉ (hangup_call env s).trace := by
  cases hfail : env.deleteRoomFails with
  | false =>
      rw [hangup_call_ok env room s hctx hfail]
      exact ⟨rfl, by simp⟩
  | true =>
      rw [hangup_call_fail env room s hctx hfail]
      exact ⟨rfl, by simp⟩

/-- C6 witness: concrete instance at `exEnv` with `is_spam = false`. -/
theorem C6_witness :
    (hangup_call exEnv false).trace.take 4 =
      [Action.disallowInterruptions,
       Action.scheduleReply (if false then spamMessage else normalMessage),
       Action.captureTranscript exEnv.history,
       Action.deleteRoom "call-+15551234567"] ∧
    Action.awaitPlayout ∉ (hangup_call exEnv false).trace :=
  C6_step_ordering exEnv "call-+15551234567" false rfl

/-- C7: classification is first-match-wins: a room name matching the
reserved telephone pattern yields Phone regardless of participants; else a
connected SIP participant yields Phone; else Web. In particular the name
"call-+15551234567" with no participants is Phone, and no participants
with a non-matching name defaults to Web. -/
theorem C7_classification (name : String) (ps : List ParticipantKind) :
    (roomNamePhonePattern name = true → classify name ps = Origin.phone) ∧
    (roomNamePhonePattern name = false →
      ps.any (fun p => p == ParticipantKind.sip) = true →
      classify name ps = Origin.phone) ∧
    (roomNamePhonePattern name = false →
      ps.any (fun p => p == ParticipantKind.sip) = false →
      classify name ps = Origin.web) ∧
    classify "call-+15551234567" [] = Origin.phone ∧
    (roomNamePhonePattern name = false → classify name [] = Origin.web) := by
  refine ⟨fun h => ?_, fun h hsip => ?_, fun h hsip => ?_, by decide, fun h => ?_⟩
  · simp [classify, my_agent_is_phone, h]
  · simp [classify, my_agent_is_phone, h, hsip]
  · simp [classify, my_agent_is_phone, h, hsip]
  · simp [classify, my_agent_is_phone, h]

/-- C7 witness: concrete instances — scenario A name with a non-SIP
participant classifies Phone by the name rule. -/
theorem C7_witness :
    classify "call-+15551234567" [ParticipantKind.standard] = Origin.phone :=
  (C7_classification "call-+15551234567" [ParticipantKind.standard]).1 (by decide)

/-- C8: `select` over the two-valued origin never leaks capabilities
across the channel boundary: the Phone bundle's tool set is exactly
{terminate} and excludes the memory query; the Web bundle's tool set is
exactly {queryMemory} and excludes terminate; likewise for
`Assistant_init` over the code's boolean `is_phone`. -/
theorem C8_capability_selection :
    (select Origin.phone).tools = [Capability.terminate] ∧
    (select Origin.web).tools = [Capability.queryMemory] ∧
    Capability.queryMemory ∉ (select Origin.phone).tools ∧
    Capability.terminate ∉ (select Origin.web).tools ∧
    (Assistant_init true).tools = [Capability.terminate] ∧
    (Assistant_init false).tools = [Capability.queryMemory] := by
  refine ⟨rfl, rfl, by simp [select, Assistant_init], by simp [select, Assistant_init],
    rfl, rfl⟩

/-- C9: the closing utterance instruction is reason-specific and scheduled
verbatim, exactly once: with reason Spam the trace schedules exactly the
fixed rejection instruction (pinned here to its full text), and with
reason Normal it schedules exactly the templated polite goodbye. -/
theorem C9_reason_specific_message (env : Env) :
    ((hangup_call env true).trace.filter Action.isScheduleReply
        = [Action.scheduleReply spamMessage]) ∧
    ((hangup_call env false).trace.filter Action.isScheduleReply
        = [Action.scheduleReply normalMessage]) ∧
    spamMessage = "You MUST say exactly these words with no changes: \x27I\x27m not interested in unsolicited offers. Please remove this number from your calling list. Goodbye.\x27 Do not add anything else. Do not say \x27call has been ended\x27 or offer assistance." := by
  refine ⟨?_, ?_, rfl⟩ <;>
  · cases hctx : env.jobCtx with
    | none =>
        rw [hangup_call_noctx env _ hctx]
        simp [Action.isScheduleReply]
    | some room =>
        cases hfail : env.deleteRoomFails with
        | false =>
            rw [hangup_call_ok env room _ hctx hfail]
            simp [Action.isScheduleReply]
        | true =>
            rw [hangup_call_fail env room _ hctx hfail]
            simp [Action.isScheduleReply]

/-- C10: the reason argument defaults to Normal: `is_spam` omitted means
`false`, so the default invocation schedules exactly the polite goodbye;
and whenever the teardown does not raise (it succeeds, or there is no job
context), the tool returns the empty string for either reason and for any
delivery (POST) outcome, the POST outcome being ignored by `hangup_call`. -/
theorem C10_default_reason (env : Env) :
    hangup_call_default_is_spam = false ∧
    hangup_call_default env = hangup_call env false ∧
    ((hangup_call_default env).trace.filter Action.isScheduleReply
        = [Action.scheduleReply normalMessage]) ∧
    (env.deleteRoomFails = false →
      ∀ s : Bool, (hangup_call env s).result = Except.ok "") ∧
    (env.jobCtx = none →
      ∀ s : Bool, (hangup_call env s).result = Except.ok "") := by
  refine ⟨rfl, rfl, ?_, fun hok s => ?_, fun hctx s => ?_⟩
  · show (hangup_call env false).trace.filter Action.isScheduleReply = _
    cases hctx : env.jobCtx with
    | none =>
        rw [hangup_call_noctx env _ hctx]
        simp [Action.isScheduleReply]
    | some room =>
        cases hfail : env.deleteRoomFails with
        | false =>
            rw [hangup_call_ok env room _ hctx hfail]
            simp [Action.isScheduleReply]
        | true =>
            rw [hangup_call_fail env room _ hctx hfail]
            simp [Action.isScheduleReply]
  · cases hctx : env.jobCtx with
    | none => rw [hangup_call_noctx env s hctx]
    | some room => rw [hangup_call_ok env room s hctx hok]
  · rw [hangup_call_noctx env s hctx]

/-- C10 witness: concrete instance at `exEnv`. -/
theorem C10_witness :
    hangup_call_default_is_spam = false ∧
    (hangup_call exEnv false).result = Except.ok "" :=
  ⟨(C10_default_reason exEnv).1, (C10_default_reason exEnv).2.2.2.1 rfl false⟩

/-- C1 counterexample: the code has no termination guard flag, so two
termination triggers for one session are NOT collapsed to one teardown and
one delivery: two `hangup_call` invocations against the concrete session
`exEnv` perform two `delete_room` calls and two transcript POSTs. -/
theorem C1_counterexample :
    countTeardowns (runSession exEnv
      [SessionEvent.toolHangup false, SessionEvent.toolHangup false]) = 2 ∧
    countPosts (runSession exEnv
      [SessionEvent.toolHangup false, SessionEvent.toolHangup false]) = 2 := by
  exact ⟨rfl, rfl⟩

/-- C1 amended: there is no guard flag. A tool invocation paired with a
transport disconnect does yield exactly one teardown and one delivery
attempt — but only because a disconnect runs no code at all, not because
of any guard; each tool invocation performs its own teardown and delivery,
so two tool invocations yield two of each. -/
theorem C1_no_guard (env : Env) (room : String) (s t : Bool)
    (hctx : env.jobCtx = some room) (hok : env.deleteRoomFails = false) :
    countTeardowns (runSession env
      [SessionEvent.toolHangup s, SessionEvent.disconnect]) = 1 ∧
    countPosts (runSession env
      [SessionEvent.toolHangup s, SessionEvent.disconnect]) = 1 ∧
    countTeardowns (runSession env
      [SessionEvent.toolHangup s, SessionEvent.toolHangup t]) = 2 ∧
    countPosts (runSession env
      [SessionEvent.toolHangup s, SessionEvent.toolHangup t]) = 2 := by
  refine ⟨?_, ?_, ?_, ?_⟩ <;>
    simp [runSession, processEvent, countTeardowns, countPosts,
      hangup_call_ok env room s hctx hok, hangup_call_ok env room t hctx hok,
      Action.isTeardown, Action.isPost, List.filter]

/-- C1 witness: concrete instance at `exEnv`. -/
theorem C1_witness :
    countTeardowns (runSession exEnv
      [SessionEvent.toolHangup false, SessionEvent.disconnect]) = 1 ∧
    countPosts (runSession exEnv
      [SessionEvent.toolHangup false, SessionEvent.disconnect]) = 1 ∧
    countTeardowns (runSession exEnv
      [SessionEvent.toolHangup false, SessionEvent.toolHangup true]) = 2 ∧
    countPosts (runSession exEnv
      [SessionEvent.toolHangup false, SessionEvent.toolHangup true]) = 2 :=
  C1_no_guard exEnv "call-+15551234567" false true rfl rfl

/-- C2 counterexample: `get_call_debrief` wraps its `requests.get` in no
try/except, so a transport failure (here a timeout) raises past the tool
boundary instead of returning an empty result. -/
theorem C2_counterexample :
    get_call_debrief (HttpGetResult.raised "timeout") = Except.error "timeout" ∧
    get_call_debrief (HttpGetResult.raised "timeout") ≠ Except.ok "" := by
  exact ⟨rfl, by simp [get_call_debrief]⟩

/-- C2 amended: on a 200 response the body is returned as-is, unmodified
(the body is never parsed, so a malformed body is returned too, not
emptied); on any non-200 response the empty string is returned; but a
transport failure or timeout raises out of the tool — there is no
exception handling at the tool boundary. -/
theorem C2_get_call_debrief (status : Nat) (body e : String) (hs : status ≠ 200) :
    get_call_debrief (HttpGetResult.response 200 body) = Except.ok body ∧
    get_call_debrief (HttpGetResult.response status body) = Except.ok "" ∧
    get_call_debrief (HttpGetResult.raised e) = Except.error e := by
  refine ⟨rfl, ?_, rfl⟩
  simp [get_call_debrief, hs]

/-- C2 witness: concrete instance — a 500 response (scenario D uses 503;
any non-200 status) yields the empty string, and the scenario C body comes
back unmodified on 200. -/
theorem C2_witness :
    get_call_debrief (HttpGetResult.response 200 "Jane Doe: called about invoice")
      = Except.ok "Jane Doe: called about invoice" ∧
    get_call_debrief (HttpGetResult.response 500 "server error") = Except.ok "" :=
  ⟨(C2_get_call_debrief 500 "Jane Doe: called about invoice" "timeout" (by decide)).1,
   (C2_get_call_debrief 500 "server error" "timeout" (by decide)).2.1⟩

/-- C3 counterexample: a transport-level disconnect drives nothing — no
handler is registered in agent.py, so the Active session at `exEnv` that
ends by the caller hanging up produces no transcript delivery attempt (and
no teardown): the disconnect event runs no actions at all. -/
theorem C3_counterexample :
    runSession exEnv [SessionEvent.disconnect] = [] ∧
    countPosts (runSession exEnv [SessionEvent.disconnect]) = 0 ∧
    countTeardowns (runSession exEnv [SessionEvent.disconnect]) = 0 := by
  exact ⟨rfl, rfl, rfl⟩

/-- C3 amended: a transport-level disconnect does not drive any
termination handling: no orchestrator code runs on it (the helper
`send_transcript_to_n8n` exists but is never called), so no transcript is
snapshotted or delivered for a caller hang-up. Transcript snapshot and
delivery happen exactly once only when the `hangup_call` tool is invoked. -/
theorem C3_disconnect_runs_nothing (env : Env) (room : String) (s : Bool)
    (hctx : env.jobCtx = some room) (hok : env.deleteRoomFails = false) :
    runSession env [SessionEvent.disconnect] = [] ∧
    countPosts (runSession env [SessionEvent.toolHangup s]) = 1 ∧
    countTeardowns (runSession env [SessionEvent.toolHangup s]) = 1 := by
  refine ⟨rfl, ?_, ?_⟩ <;>
    simp [runSession, processEvent, countTeardowns, countPosts,
      hangup_call_ok env room s hctx hok, Action.isTeardown, Action.isPost, List.filter]

/-- C3 witness: concrete instance at `exEnv`. -/
theorem C3_witness :
    runSession exEnv [SessionEvent.disconnect] = [] ∧
    countPosts (runSession exEnv [SessionEvent.toolHangup false]) = 1 ∧
    countTeardowns (runSession exEnv [SessionEvent.toolHangup false]) = 1 :=
  C3_disconnect_runs_nothing exEnv "call-+15551234567" false rfl rfl

/-- C4 counterexample: the `delete_room` call is not wrapped in try/except:
at the concrete session `failEnv`, where the remote deletion raises, the
exception propagates out of `hangup_call` and the transcript delivery
attempt never happens — the failure is neither logged-and-ignored nor
non-fatal to the remaining termination steps. -/
theorem C4_counterexample :
    (hangup_call failEnv false).result = Except.error "delete_room failed" ∧
    countPosts (hangup_call failEnv false).trace = 0 := by
  exact ⟨rfl, rfl⟩

/-- C4 amended: a remote `delete_room` failure propagates out of
`hangup_call` and skips the transcript delivery attempt entirely; only
when the teardown succeeds does the tool POST the transcript (whose own
failure IS caught and ignored) and return normally. -/
theorem C4_teardown_failure_propagates (env : Env) (room : String) (s : Bool)
    (hctx : env.jobCtx = some room) :
    (env.deleteRoomFails = true →
      (hangup_call env s).result = Except.error "delete_room failed" ∧
      countPosts (hangup_call env s).trace = 0) ∧
    (env.deleteRoomFails = false →
      (hangup_call env s).result = Except.ok "" ∧
      countPosts (hangup_call env s).trace = 1) := by
  constructor
  · intro hfail
    rw [hangup_call_fail env room s hctx hfail]
    exact ⟨rfl, rfl⟩
  · intro hok
    rw [hangup_call_ok env room s hctx hok]
    exact ⟨rfl, rfl⟩

/-- C4 witness: concrete instances at `failEnv` and `exEnv`. -/
theorem C4_witness :
    ((hangup_call failEnv false).result = Except.error "delete_room failed" ∧
      countPosts (hangup_call failEnv false).trace = 0) ∧
    ((hangup_call exEnv false).result = Except.ok "" ∧
      countPosts (hangup_call exEnv false).trace = 1) :=
  ⟨(C4_teardown_failure_propagates failEnv "call-+15551234567" false rfl).1 rfl,
   (C4_teardown_failure_propagates exEnv "call-+15551234567" false rfl).2 rfl⟩

end Agent
